import Mathlib

set_option maxHeartbeats 1000000

/-!
Shallow embedding of the CWA Taitung weather backend (src/server.js) and
verification of its specification.  The single route handler
`getTaitungWeather` checks the configured API key, performs one upstream
fetch, locates the 臺東市 township record, and normalizes its weather
elements into forecast periods with a PoP6h → PoP12h → "0%" rain fallback.
-/

namespace CwaBackend

/-- Model of the `parameter` object inside a time entry of the upstream
dataset; the code reads `timeEntry.parameter.parameterName` (server.js:103). -/
structure Parameter where
  parameterName : String
deriving DecidableEq, Repr

/-- Model of one entry of `element.time`.  The code guards on
`!timeEntry.parameter` (server.js:100), so `parameter` is optional. -/
structure TimeEntry where
  startTime : String
  endTime : String
  parameter : Option Parameter
deriving DecidableEq, Repr

/-- Model of one weather element record: `elementName` plus time entries
(server.js:98-105). -/
structure WeatherElement where
  elementName : String
  time : List TimeEntry
deriving DecidableEq, Repr

/-- Model of one township record (`location` array entry, server.js:57-77). -/
structure Township where
  locationName : String
  weatherElement : List WeatherElement
deriving DecidableEq, Repr

/-- Model of one location group (臺東縣 container).  The code guards on
`!locationDataContainer.location` (server.js:49), so the township list is
optional. -/
structure LocationGroup where
  location : Option (List Township)
deriving DecidableEq, Repr

/-- Model of `response.data.records` (server.js:47,72): an optional
`issueTime` (the code defaults it via `||`) and the location groups. -/
structure Records where
  issueTime : Option String
  locations : List LocationGroup
deriving DecidableEq, Repr

/-- Model of `response.data`, the raw upstream JSON document. -/
structure ApiResponse where
  records : Records
deriving DecidableEq, Repr

/-- Output forecast period, mirroring the object literal at server.js:87-96. -/
structure Forecast where
  startTime : String
  endTime : String
  weather : String
  rain : String
  minTemp : String
  maxTemp : String
  comfort : String
  windSpeed : String
deriving DecidableEq, Repr

/-- Output `weatherData` object (server.js:69-74). -/
structure WeatherData where
  city : String
  updateTime : String
  forecasts : List Forecast
deriving DecidableEq, Repr

/-- Exceptions the handler body can raise: the explicit
`throw new Error("缺少 Wx 天氣要素")` (server.js:81) and the TypeError from
reading `.parameterName` of an undefined `parameter` (server.js:130). -/
inductive JsError where
  | thrown (msg : String)
  | typeError
deriving DecidableEq, Repr

/-- JSON bodies the handler sends: a success body `{success: true, data}` or
an error body `{error, message}` (details of upstream errors are elided). -/
inductive ResponseBody where
  | success (data : WeatherData)
  | failure (error : String) (message : String)
deriving DecidableEq, Repr

/-- HTTP response: status code plus JSON body. -/
structure HttpResponse where
  status : Nat
  body : ResponseBody
deriving DecidableEq, Repr

/-- Outcome of the `axios.get` call (server.js:36-44): success with the
parsed document, an upstream HTTP error carrying a status and optional
message (`error.response`, server.js:148-154), or a transport failure with
no upstream response. -/
inductive FetchOutcome where
  | ok (doc : ApiResponse)
  | httpError (status : Nat) (message : Option String)
  | transportError
deriving DecidableEq, Repr

/-- Resolution of `response.data.records.issueTime || "未知發布時間"`
(server.js:72); in JS both a missing field and the empty string are falsy. -/
def resolveUpdateTime (issueTime : Option String) : String :=
  match issueTime with
  | some s => if s = "" then "未知發布時間" else s
  | none => "未知發布時間"

/-- Fresh forecast for index `i` of the Wx time axis (server.js:87-96):
start and end times copied from the Wx entry, every other field "". -/
def initForecast (wxEntry : TimeEntry) : Forecast :=
  { startTime := wxEntry.startTime
    endTime := wxEntry.endTime
    weather := ""
    rain := ""
    minTemp := ""
    maxTemp := ""
    comfort := ""
    windSpeed := "" }

/-- Body of the `weatherElements.forEach` callback (server.js:98-124):
skip elements without an i-th time entry or without a parameter, otherwise
dispatch on the element name. -/
def applyElement (i : Nat) (forecast : Forecast) (element : WeatherElement) :
    Forecast :=
  match element.time[i]? with
  | none => forecast
  | some timeEntry =>
    match timeEntry.parameter with
    | none => forecast
    | some p =>
      let value := p.parameterName
      if element.elementName = "Wx" then { forecast with weather := value }
      else if element.elementName = "PoP6h" then { forecast with rain := value ++ "%" }
      else if element.elementName = "T" then
        { forecast with minTemp := value ++ "°C", maxTemp := value ++ "°C" }
      else if element.elementName = "CI" then { forecast with comfort := value }
      else if element.elementName = "Ws" then { forecast with windSpeed := value }
      else forecast

/-- PoP12h fallback block (server.js:126-135).  If PoP6h left `rain` empty,
look up the PoP12h element; if it has an i-th time entry the code reads
`pop12hElement.time[i].parameter.parameterName` without guarding
`parameter`, so a parameterless entry raises a TypeError; otherwise default
to "0%". -/
def resolveRain (weatherElements : List WeatherElement) (i : Nat)
    (forecast : Forecast) : Except JsError Forecast :=
  if forecast.rain = "" then
    match weatherElements.find? (fun e => e.elementName = "PoP12h") with
    | some pop12hElement =>
      match pop12hElement.time[i]? with
      | some timeEntry =>
        match timeEntry.parameter with
        | some p => .ok { forecast with rain := p.parameterName ++ "%" }
        | none => .error .typeError
      | none => .ok { forecast with rain := "0%" }
    | none => .ok { forecast with rain := "0%" }
  else
    .ok forecast

/-- Construction of the forecast for index `i` whose Wx time entry is
`wxEntry`: element dispatch followed by the rain fallback. -/
def makeForecast (weatherElements : List WeatherElement) (i : Nat)
    (wxEntry : TimeEntry) : Except JsError Forecast :=
  resolveRain weatherElements i
    (weatherElements.foldl (applyElement i) (initForecast wxEntry))

/-- Loop over `i in [0, timeCount)` (server.js:86-139), expressed as a
monadic map over the enumerated Wx time entries; the first raised error
aborts the whole loop, as a JS throw would. -/
def makeForecasts (weatherElements : List WeatherElement)
    (wxElement : WeatherElement) : Except JsError (List Forecast) :=
  wxElement.time.enum.mapM (fun p => makeForecast weatherElements p.1 p.2)

/-- Normalization of one township record (server.js:69-139): find the Wx
element (throwing if absent), then build the forecast list. -/
def normalizeTownship (issueTime : Option String) (township : Township) :
    Except JsError WeatherData :=
  match township.weatherElement.find? (fun e => e.elementName = "Wx") with
  | none => .error (.thrown "缺少 Wx 天氣要素")
  | some wxElement =>
    match makeForecasts township.weatherElement wxElement with
    | .error e => .error e
    | .ok forecasts =>
      .ok { city := township.locationName
            updateTime := resolveUpdateTime issueTime
            forecasts := forecasts }

/-- Township selection (server.js:57-59): the entry whose `locationName`
equals "臺東市", else the first entry (`find(...) || location[0]`). -/
def selectTownship (location : List Township) : Option Township :=
  (location.find? (fun loc => loc.locationName = "臺東市")).orElse
    (fun _ => location[0]?)

/-- Processing of a successfully fetched document (server.js:47-144,
with thrown errors mapped by the catch block at server.js:145-161:
neither thrown error carries an `error.response`, so both yield the
generic 500). -/
def handleDoc (doc : ApiResponse) : HttpResponse :=
  match doc.records.locations[0]? with
  | none =>
    { status := 404, body := .failure "查無資料" "無法取得臺東縣鄉鎮天氣資料" }
  | some locationDataContainer =>
    match locationDataContainer.location with
    | none =>
      { status := 404, body := .failure "查無資料" "無法取得臺東縣鄉鎮天氣資料" }
    | some location =>
      match selectTownship location with
      | none =>
        { status := 404, body := .failure "查無資料" "無法取得臺東市天氣資料" }
      | some taitungCityData =>
        match normalizeTownship doc.records.issueTime taitungCityData with
        | .ok weatherData =>
          { status := 200, body := .success weatherData }
        | .error _ =>
          { status := 500, body := .failure "伺服器錯誤" "無法取得天氣資料，請稍後再試" }

/-- Truthiness of the configured key: `!CWA_API_KEY` (server.js:28) is true
when the environment variable is unset or the empty string. -/
def apiKeyMissing (apiKey : Option String) : Bool :=
  match apiKey with
  | none => true
  | some s => s = ""

/-- Route handler `getTaitungWeather` (server.js:25-163).  Inputs: the
configured key and the outcome the network would produce; outputs the HTTP
response together with the number of outbound calls issued, incremented
exactly where `axios.get` runs (server.js:36). -/
def getTaitungWeather (apiKey : Option String) (fetch : FetchOutcome) :
    HttpResponse × Nat :=
  if apiKeyMissing apiKey then
    ({ status := 500
       body := .failure "伺服器設定錯誤" "請在 .env 檔案中設定 CWA_API_KEY" }, 0)
  else
    match fetch with
    | .ok doc => (handleDoc doc, 1)
    | .httpError status message =>
      ({ status := status
         body := .failure "CWA API 錯誤"
           (match message with
            | some m => if m = "" then "無法取得天氣資料" else m
            | none => "無法取得天氣資料") }, 1)
    | .transportError =>
      ({ status := 500, body := .failure "伺服器錯誤" "無法取得天氣資料，請稍後再試" }, 1)

/-- Value an element contributes at index `i`: the `parameterName` of the
parameter of its i-th time entry, when both exist.  The forEach callback
skips the element exactly when this is `none` (server.js:99-103). -/
def usableValue (element : WeatherElement) (i : Nat) : Option String :=
  (element.time[i]?).bind (fun t => t.parameter.map (fun p => p.parameterName))

/-- Spec-side predicate: no element named `n` yields a value at index `i`
(the element is absent, has no i-th time entry, or that entry has no
parameter). -/
def noValueAt (els : List WeatherElement) (i : Nat) (n : String) : Bool :=
  els.all (fun e => !(e.elementName == n) || (usableValue e i).isNone)

/-- Helper to build a time entry with an optional parameter value. -/
def te (v : Option String) : TimeEntry :=
  { startTime := "s", endTime := "e"
    parameter := v.map (fun x => { parameterName := x }) }

/-- Concrete township for the precipitation-fallback scenario of the spec:
Wx time-axis length 2, PoP6h with value "30" only at index 0, PoP12h with
value "70" at index 1 and no value at index 0. -/
def c1Township : Township :=
  { locationName := "臺東市"
    weatherElement :=
      [ { elementName := "Wx", time := [te (some "晴"), te (some "陰")] },
        { elementName := "PoP6h", time := [te (some "30")] },
        { elementName := "PoP12h", time := [te none, te (some "70")] } ] }

/-- Concrete township where, at index 0, PoP6h is absent and the PoP12h
element has a time entry that carries no parameter. -/
def c2Township : Township :=
  { locationName := "臺東市"
    weatherElement :=
      [ { elementName := "Wx", time := [te (some "晴")] },
        { elementName := "PoP12h", time := [te none] } ] }

/-- Concrete upstream document wrapping `c2Township`. -/
def c2Doc : ApiResponse :=
  { records := { issueTime := none, locations := [{ location := some [c2Township] }] } }

/-- Concrete element list with only a parameterless Wx entry: no element
yields any value at index 0, and no PoP source exists. -/
def c10Elements : List WeatherElement :=
  [ { elementName := "Wx", time := [te none] } ]

/-- Forecast produced from `c10Elements` at index 0: all fields default to
the empty string except `rain`, which defaults to "0%". -/
def c10Forecast : Forecast :=
  { startTime := "s", endTime := "e", weather := "", rain := "0%"
    minTemp := "", maxTemp := "", comfort := "", windSpeed := "" }

/-- Concrete township list whose second entry matches the target city
exactly. -/
def c4Location : List Township :=
  [ { locationName := "成功鎮"
      weatherElement := [{ elementName := "Wx", time := [te (some "晴")] }] },
    { locationName := "臺東市"
      weatherElement := [{ elementName := "Wx", time := [te (some "雨")] }] } ]

/-- Concrete upstream document wrapping `c4Location`. -/
def c4Doc : ApiResponse :=
  { records := { issueTime := some "2024-01-01", locations := [{ location := some c4Location }] } }

/-- Concrete township list without an exact match for the target city. -/
def c5Location : List Township :=
  [ { locationName := "成功鎮"
      weatherElement := [{ elementName := "Wx", time := [te (some "晴")] }] },
    { locationName := "綠島鄉"
      weatherElement := [{ elementName := "Wx", time := [te (some "陰")] }] } ]

/-- Concrete upstream document wrapping `c5Location`. -/
def c5Doc : ApiResponse :=
  { records := { issueTime := none, locations := [{ location := some c5Location }] } }

/-- Concrete township whose weather-element list has no "Wx" element. -/
def c6Township : Township :=
  { locationName := "臺東市"
    weatherElement := [{ elementName := "T", time := [te (some "25")] }] }

/-- Concrete upstream document wrapping `c6Township`. -/
def c6Doc : ApiResponse :=
  { records := { issueTime := none, locations := [{ location := some [c6Township] }] } }

/-- Concrete element list with a single "T" element valued "25" at
index 0. -/
def c7Elements : List WeatherElement :=
  [ { elementName := "Wx", time := [te (some "晴")] },
    { elementName := "T", time := [te (some "25")] } ]

/-- Concrete upstream document whose locations array is empty. -/
def c8Doc : ApiResponse :=
  { records := { issueTime := none, locations := [] } }

/-! Helper lemmas about the element dispatch. -/

theorem applyElement_no_value (i : Nat) (f : Forecast) (e : WeatherElement)
    (h : usableValue e i = none) : applyElement i f e = f := by
  unfold applyElement
  split
  · rfl
  next timeEntry ht =>
    split
    · rfl
    next p hp =>
      unfold usableValue at h
      rw [ht, Option.some_bind, hp] at h
      exact absurd h (by simp)

theorem applyElement_some_value (i : Nat) (f : Forecast) (e : WeatherElement)
    (v : String) (h : usableValue e i = some v) :
    applyElement i f e =
      (if e.elementName = "Wx" then { f with weather := v }
       else if e.elementName = "PoP6h" then { f with rain := v ++ "%" }
       else if e.elementName = "T" then
         { f with minTemp := v ++ "°C", maxTemp := v ++ "°C" }
       else if e.elementName = "CI" then { f with comfort := v }
       else if e.elementName = "Ws" then { f with windSpeed := v }
       else f) := by
  unfold applyElement
  split
  · next ht =>
      unfold usableValue at h
      rw [ht] at h
      exact absurd h (by simp)
  next timeEntry ht =>
    split
    · next hp =>
        unfold usableValue at h
        rw [ht, Option.some_bind, hp] at h
        exact absurd h (by simp)
    next p hp =>
      unfold usableValue at h
      rw [ht, Option.some_bind, hp] at h
      have hpv : p.parameterName = v := by
        simpa using h
      rw [hpv]

theorem foldl_preserve_proj {α β γ : Type} (g : β → α → β) (proj : β → γ)
    (l : List α) (b : β) (h : ∀ x ∈ l, ∀ acc, proj (g acc x) = proj acc) :
    proj (l.foldl g b) = proj b := by
  induction l generalizing b with
  | nil => rfl
  | cons a l ih =>
    rw [List.foldl_cons, ih _ (fun x hx acc => h x (List.mem_cons_of_mem _ hx) acc),
      h a (List.mem_cons_self _ _) b]

theorem applyElement_weather_eq (i : Nat) (f : Forecast) (e : WeatherElement)
    (h : e.elementName = "Wx" → usableValue e i = none) :
    (applyElement i f e).weather = f.weather := by
  cases hv : usableValue e i with
  | none => rw [applyElement_no_value _ _ _ hv]
  | some v =>
    have hn : e.elementName ≠ "Wx" := fun hn => by
      rw [h hn] at hv; exact Option.noConfusion hv
    rw [applyElement_some_value _ _ _ _ hv, if_neg hn]
    split
    · rfl
    · split
      · rfl
      · split
        · rfl
        · split <;> rfl

theorem applyElement_rain_eq (i : Nat) (f : Forecast) (e : WeatherElement)
    (h : e.elementName = "PoP6h" → usableValue e i = none) :
    (applyElement i f e).rain = f.rain := by
  cases hv : usableValue e i with
  | none => rw [applyElement_no_value _ _ _ hv]
  | some v =>
    have hn : e.elementName ≠ "PoP6h" := fun hn => by
      rw [h hn] at hv; exact Option.noConfusion hv
    rw [applyElement_some_value _ _ _ _ hv]
    split
    · rfl
    · split
      · rfl
      · split
        · rfl
        · split <;> rfl

theorem applyElement_minTemp_eq (i : Nat) (f : Forecast) (e : WeatherElement)
    (h : e.elementName = "T" → usableValue e i = none) :
    (applyElement i f e).minTemp = f.minTemp := by
  cases hv : usableValue e i with
  | none => rw [applyElement_no_value _ _ _ hv]
  | some v =>
    have hn : e.elementName ≠ "T" := fun hn => by
      rw [h hn] at hv; exact Option.noConfusion hv
    rw [applyElement_some_value _ _ _ _ hv]
    split
    · rfl
    · split
      · rfl
      · split
        · rfl
        · split <;> rfl

theorem applyElement_maxTemp_eq (i : Nat) (f : Forecast) (e : WeatherElement)
    (h : e.elementName = "T" → usableValue e i = none) :
    (applyElement i f e).maxTemp = f.maxTemp := by
  cases hv : usableValue e i with
  | none => rw [applyElement_no_value _ _ _ hv]
  | some v =>
    have hn : e.elementName ≠ "T" := fun hn => by
      rw [h hn] at hv; exact Option.noConfusion hv
    rw [applyElement_some_value _ _ _ _ hv]
    split
    · rfl
    · split
      · rfl
      · split
        · rfl
        · split <;> rfl

theorem applyElement_comfort_eq (i : Nat) (f : Forecast) (e : WeatherElement)
    (h : e.elementName = "CI" → usableValue e i = none) :
    (applyElement i f e).comfort = f.comfort := by
  cases hv : usableValue e i with
  | none => rw [applyElement_no_value _ _ _ hv]
  | some v =>
    have hn : e.elementName ≠ "CI" := fun hn => by
      rw [h hn] at hv; exact Option.noConfusion hv
    rw [applyElement_some_value _ _ _ _ hv]
    split
    · rfl
    · split
      · rfl
      · split
        · rfl
        · split <;> rfl

theorem applyElement_windSpeed_eq (i : Nat) (f : Forecast) (e : WeatherElement)
    (h : e.elementName = "Ws" → usableValue e i = none) :
    (applyElement i f e).windSpeed = f.windSpeed := by
  cases hv : usableValue e i with
  | none => rw [applyElement_no_value _ _ _ hv]
  | some v =>
    have hn : e.elementName ≠ "Ws" := fun hn => by
      rw [h hn] at hv; exact Option.noConfusion hv
    rw [applyElement_some_value _ _ _ _ hv]
    split
    · rfl
    · split
      · rfl
      · split
        · rfl
        · split <;> rfl

theorem applyElement_T_set (i : Nat) (f : Forecast) (e : WeatherElement)
    (v : String) (hn : e.elementName = "T") (hv : usableValue e i = some v) :
    applyElement i f e = { f with minTemp := v ++ "°C", maxTemp := v ++ "°C" } := by
  rw [applyElement_some_value _ _ _ _ hv, hn]
  rfl

/-! Helper lemmas about the rain fallback. -/

theorem resolveRain_kept (els : List WeatherElement) (i : Nat) (f : Forecast)
    (hrain : f.rain ≠ "") : resolveRain els i f = .ok f := by
  unfold resolveRain
  rw [if_neg hrain]

theorem resolveRain_fallback_some (els : List WeatherElement) (i : Nat)
    (f : Forecast) (el : WeatherElement) (entry : TimeEntry) (p : Parameter)
    (hrain : f.rain = "")
    (hfind : els.find? (fun e => e.elementName = "PoP12h") = some el)
    (hentry : el.time[i]? = some entry)
    (hparam : entry.parameter = some p) :
    resolveRain els i f = .ok { f with rain := p.parameterName ++ "%" } := by
  unfold resolveRain
  rw [if_pos hrain]
  simp only [hfind, hentry, hparam]

theorem resolveRain_fallback_crash (els : List WeatherElement) (i : Nat)
    (f : Forecast) (el : WeatherElement) (entry : TimeEntry)
    (hrain : f.rain = "")
    (hfind : els.find? (fun e => e.elementName = "PoP12h") = some el)
    (hentry : el.time[i]? = some entry)
    (hparam : entry.parameter = none) :
    resolveRain els i f = .error .typeError := by
  unfold resolveRain
  rw [if_pos hrain]
  simp only [hfind, hentry, hparam]

theorem resolveRain_default_noel (els : List WeatherElement) (i : Nat)
    (f : Forecast)
    (hrain : f.rain = "")
    (hfind : els.find? (fun e => e.elementName = "PoP12h") = none) :
    resolveRain els i f = .ok { f with rain := "0%" } := by
  unfold resolveRain
  rw [if_pos hrain]
  simp only [hfind]

theorem resolveRain_default_noentry (els : List WeatherElement) (i : Nat)
    (f : Forecast) (el : WeatherElement)
    (hrain : f.rain = "")
    (hfind : els.find? (fun e => e.elementName = "PoP12h") = some el)
    (hentry : el.time[i]? = none) :
    resolveRain els i f = .ok { f with rain := "0%" } := by
  unfold resolveRain
  rw [if_pos hrain]
  simp only [hfind, hentry]

theorem resolveRain_shape (els : List WeatherElement) (i : Nat)
    (f f' : Forecast) (h : resolveRain els i f = .ok f') :
    ∃ r, f' = { f with rain := r } := by
  unfold resolveRain at h
  split at h
  · split at h
    · split at h
      · split at h
        · next hp => exact ⟨_, (by injection h with h2; exact h2.symm)⟩
        · exact Except.noConfusion h
      · exact ⟨_, (by injection h with h2; exact h2.symm)⟩
    · exact ⟨_, (by injection h with h2; exact h2.symm)⟩
  · exact ⟨f.rain, (by injection h with h2; exact h2.symm)⟩

theorem append_percent_ne_empty (s : String) : s ++ "%" ≠ "" := by
  intro h
  have h2 := congrArg String.length h
  rw [String.length_append] at h2
  have h3 : ("%" : String).length = 1 := rfl
  have h4 : ("" : String).length = 0 := rfl
  rw [h3, h4] at h2
  omega

/-! Helper lemmas about the forEach fold. -/

theorem foldl_weather_eq (i : Nat) (els : List WeatherElement) (f : Forecast)
    (h : ∀ e ∈ els, e.elementName = "Wx" → usableValue e i = none) :
    (els.foldl (applyElement i) f).weather = f.weather :=
  foldl_preserve_proj _ Forecast.weather els f
    (fun e he acc => applyElement_weather_eq i acc e (h e he))

theorem foldl_rain_eq (i : Nat) (els : List WeatherElement) (f : Forecast)
    (h : ∀ e ∈ els, e.elementName = "PoP6h" → usableValue e i = none) :
    (els.foldl (applyElement i) f).rain = f.rain :=
  foldl_preserve_proj _ Forecast.rain els f
    (fun e he acc => applyElement_rain_eq i acc e (h e he))

theorem foldl_minTemp_eq (i : Nat) (els : List WeatherElement) (f : Forecast)
    (h : ∀ e ∈ els, e.elementName = "T" → usableValue e i = none) :
    (els.foldl (applyElement i) f).minTemp = f.minTemp :=
  foldl_preserve_proj _ Forecast.minTemp els f
    (fun e he acc => applyElement_minTemp_eq i acc e (h e he))

theorem foldl_maxTemp_eq (i : Nat) (els : List WeatherElement) (f : Forecast)
    (h : ∀ e ∈ els, e.elementName = "T" → usableValue e i = none) :
    (els.foldl (applyElement i) f).maxTemp = f.maxTemp :=
  foldl_preserve_proj _ Forecast.maxTemp els f
    (fun e he acc => applyElement_maxTemp_eq i acc e (h e he))

theorem foldl_comfort_eq (i : Nat) (els : List WeatherElement) (f : Forecast)
    (h : ∀ e ∈ els, e.elementName = "CI" → usableValue e i = none) :
    (els.foldl (applyElement i) f).comfort = f.comfort :=
  foldl_preserve_proj _ Forecast.comfort els f
    (fun e he acc => applyElement_comfort_eq i acc e (h e he))

theorem foldl_windSpeed_eq (i : Nat) (els : List WeatherElement) (f : Forecast)
    (h : ∀ e ∈ els, e.elementName = "Ws" → usableValue e i = none) :
    (els.foldl (applyElement i) f).windSpeed = f.windSpeed :=
  foldl_preserve_proj _ Forecast.windSpeed els f
    (fun e he acc => applyElement_windSpeed_eq i acc e (h e he))

theorem foldl_T_set (i : Nat) (tEl : WeatherElement) (v : String)
    (hname : tEl.elementName = "T") (hv : usableValue tEl i = some v) :
    ∀ (els : List WeatherElement) (f : Forecast),
      (∀ e ∈ els, e.elementName = "T" → e = tEl) → tEl ∈ els →
      (els.foldl (applyElement i) f).minTemp = v ++ "°C" ∧
      (els.foldl (applyElement i) f).maxTemp = v ++ "°C" := by
  intro els
  induction els with
  | nil => intro f _ hmem; cases hmem
  | cons a l ih =>
    intro f hT hmem
    rw [List.foldl_cons]
    by_cases hmem2 : tEl ∈ l
    · exact ih _ (fun e he hn => hT e (List.mem_cons_of_mem _ he) hn) hmem2
    · have ha : a = tEl := by
        rcases List.mem_cons.mp hmem with h | h
        · exact h.symm
        · exact absurd h hmem2
      subst ha
      have hnoT : ∀ e ∈ l, e.elementName = "T" → usableValue e i = none := by
        intro e he hn
        exact absurd ((hT e (List.mem_cons_of_mem _ he) hn) ▸ he) hmem2
      rw [applyElement_T_set i f a v hname hv]
      exact ⟨foldl_minTemp_eq i l _ hnoT, foldl_maxTemp_eq i l _ hnoT⟩

theorem resolveRain_rain_nonempty (els : List WeatherElement) (i : Nat)
    (f f' : Forecast) (h : resolveRain els i f = .ok f') : f'.rain ≠ "" := by
  unfold resolveRain at h
  split at h
  · split at h
    · split at h
      · split at h
        · injection h with h2
          rw [← h2]
          exact append_percent_ne_empty _
        · exact Except.noConfusion h
      · injection h with h2
        rw [← h2]
        exact (by decide : ("0%" : String) ≠ "")
    · injection h with h2
      rw [← h2]
      exact (by decide : ("0%" : String) ≠ "")
  · next hne =>
    injection h with h2
    rw [← h2]
    exact hne

theorem noValueAt_spec (els : List WeatherElement) (i : Nat) (n : String)
    (h : noValueAt els i n = true) :
    ∀ e ∈ els, e.elementName = n → usableValue e i = none := by
  intro e he hn
  unfold noValueAt at h
  rw [List.all_eq_true] at h
  have h2 := h e he
  rw [hn] at h2
  simpa using h2

/-! Helper lemmas about normalization, selection and the route handler. -/

theorem normalizeTownship_ok_city (issue : Option String) (t : Township)
    (wd : WeatherData) (h : normalizeTownship issue t = .ok wd) :
    wd.city = t.locationName := by
  unfold normalizeTownship at h
  split at h
  · exact Except.noConfusion h
  · split at h
    · exact Except.noConfusion h
    · injection h with h2
      rw [← h2]

theorem selectTownship_exact (location : List Township) (t : Township)
    (h : location.find? (fun loc => loc.locationName = "臺東市") = some t) :
    selectTownship location = some t := by
  unfold selectTownship
  rw [h]
  rfl

theorem selectTownship_first (location : List Township)
    (h : location.find? (fun loc => loc.locationName = "臺東市") = none) :
    selectTownship location = location[0]? := by
  unfold selectTownship
  rw [h]
  rfl

theorem handleDoc_selected (doc : ApiResponse) (g : LocationGroup)
    (location : List Township) (t : Township)
    (hg : doc.records.locations[0]? = some g)
    (hl : g.location = some location)
    (hsel : selectTownship location = some t) :
    handleDoc doc =
      (match normalizeTownship doc.records.issueTime t with
       | .ok weatherData => { status := 200, body := .success weatherData }
       | .error _ =>
         { status := 500
           body := .failure "伺服器錯誤" "無法取得天氣資料，請稍後再試" }) := by
  unfold handleDoc
  simp only [hg, hl, hsel]

/-! Claims. -/

/-- C1: for every index on the Wx time axis, `rain` is resolved by a
two-tier fallback: a value set by PoP6h during element processing (the
value with a percent suffix) is kept; otherwise the PoP12h i-th time entry
is consulted and, when present with a value, used with a percent suffix.
In the concrete spec scenario (Wx length 2, PoP6h "30" at index 0 only,
PoP12h "70" at index 1), rain is "30%" at index 0 and "70%" at index 1. -/
theorem c1_rain_two_tier_fallback :
    (∀ (els : List WeatherElement) (i : Nat) (wxEntry : TimeEntry),
      ((els.foldl (applyElement i) (initForecast wxEntry)).rain ≠ "" →
        makeForecast els i wxEntry =
          .ok (els.foldl (applyElement i) (initForecast wxEntry))) ∧
      (∀ el entry p,
        (els.foldl (applyElement i) (initForecast wxEntry)).rain = "" →
        els.find? (fun e => e.elementName = "PoP12h") = some el →
        el.time[i]? = some entry → entry.parameter = some p →
        makeForecast els i wxEntry =
          .ok { els.foldl (applyElement i) (initForecast wxEntry) with
                rain := p.parameterName ++ "%" })) ∧
    (∃ wd, normalizeTownship none c1Township = .ok wd ∧
      wd.forecasts.map Forecast.rain = ["30%", "70%"]) := by
  refine ⟨fun els i wxEntry =>
    ⟨fun hrain => ?_, fun el entry p hrain hfind hentry hparam => ?_⟩, ?_⟩
  · unfold makeForecast
    exact resolveRain_kept _ _ _ hrain
  · unfold makeForecast
    exact resolveRain_fallback_some _ _ _ _ _ _ hrain hfind hentry hparam
  · exact ⟨_, rfl, rfl⟩

/-- Witness for C1: the fallback part applied at index 1 of the concrete
scenario, where PoP6h has no entry and PoP12h carries "70". -/
theorem c1_rain_two_tier_fallback_witness :
    makeForecast c1Township.weatherElement 1 (te (some "陰")) =
      .ok { c1Township.weatherElement.foldl (applyElement 1)
              (initForecast (te (some "陰"))) with
            rain := ("70" : String) ++ "%" } :=
  (c1_rain_two_tier_fallback.1 c1Township.weatherElement 1 (te (some "陰"))).2
    { elementName := "PoP12h", time := [te none, te (some "70")] }
    (te (some "70")) { parameterName := "70" }
    (by decide) (by decide) (by decide) (by decide)

/-- C2 counterexample: at index 0 of this township neither PoP6h (absent)
nor PoP12h (entry without parameter) yields a value, yet instead of
producing rain "0%" with a successful request, the code reads
`parameter.parameterName` of the parameterless PoP12h entry, raises a
TypeError, and the request answers HTTP 500. -/
theorem c2_rain_default_counterexample :
    noValueAt c2Township.weatherElement 0 "PoP6h" = true ∧
    noValueAt c2Township.weatherElement 0 "PoP12h" = true ∧
    normalizeTownship none c2Township = .error .typeError ∧
    getTaitungWeather (some "key") (.ok c2Doc) =
      ({ status := 500
         body := .failure "伺服器錯誤" "無法取得天氣資料，請稍後再試" }, 1) :=
  ⟨by decide, by decide, rfl, rfl⟩

/-- C2 amended: if PoP6h yields no value at index i and the PoP12h element
is absent or has no i-th time entry, rain defaults to "0%" and the
forecast for that index is produced without error.  (When a PoP12h i-th
entry exists but carries no parameter, the handler instead throws.) -/
theorem c2_rain_default_amended (els : List WeatherElement) (i : Nat)
    (wxEntry : TimeEntry)
    (h6 : ∀ e ∈ els, e.elementName = "PoP6h" → usableValue e i = none)
    (h12 : ∀ el, els.find? (fun e => e.elementName = "PoP12h") = some el →
      el.time[i]? = none) :
    ∃ f, makeForecast els i wxEntry = .ok f ∧ f.rain = "0%" := by
  have hrain : (els.foldl (applyElement i) (initForecast wxEntry)).rain = "" :=
    foldl_rain_eq i els _ h6
  cases hf : els.find? (fun e => e.elementName = "PoP12h") with
  | none =>
    have heq : makeForecast els i wxEntry =
        .ok { els.foldl (applyElement i) (initForecast wxEntry) with
              rain := "0%" } := by
      unfold makeForecast
      rw [resolveRain_default_noel _ _ _ hrain hf]
    exact ⟨_, heq, rfl⟩
  | some el =>
    have heq : makeForecast els i wxEntry =
        .ok { els.foldl (applyElement i) (initForecast wxEntry) with
              rain := "0%" } := by
      unfold makeForecast
      rw [resolveRain_default_noentry _ _ _ _ hrain hf (h12 el hf)]
    exact ⟨_, heq, rfl⟩

/-- Witness for the amended C2 at a township with only a parameterless Wx
element. -/
theorem c2_rain_default_amended_witness :
    ∃ f, makeForecast c10Elements 0 (te none) = .ok f ∧ f.rain = "0%" :=
  c2_rain_default_amended c10Elements 0 (te none)
    (by decide)
    (fun el h => Option.noConfusion h)

/-- C3: with the API key unset or empty, the route answers HTTP 500 with an
error field in the body and performs no outbound call. -/
theorem c3_missing_key_no_fetch (apiKey : Option String) (fetch : FetchOutcome)
    (h : apiKey = none ∨ apiKey = some "") :
    (getTaitungWeather apiKey fetch).1.status = 500 ∧
    (∃ err msg, (getTaitungWeather apiKey fetch).1.body = .failure err msg) ∧
    (getTaitungWeather apiKey fetch).2 = 0 := by
  have hm : apiKeyMissing apiKey = true := by
    rcases h with h | h <;> subst h <;> rfl
  unfold getTaitungWeather
  rw [if_pos hm]
  exact ⟨rfl, ⟨_, _, rfl⟩, rfl⟩

/-- Witness for C3 with no key configured, for any fetch outcome. -/
theorem c3_missing_key_no_fetch_witness :
    (getTaitungWeather none .transportError).1.status = 500 ∧
    (∃ err msg,
      (getTaitungWeather none .transportError).1.body = .failure err msg) ∧
    (getTaitungWeather none .transportError).2 = 0 :=
  c3_missing_key_no_fetch none .transportError (Or.inl rfl)

/-- C4: when the first location group's township list contains an entry
named exactly 臺東市, that entry is selected (not merely the first one) and
any produced success body carries city 臺東市. -/
theorem c4_exact_city_match (doc : ApiResponse) (g : LocationGroup)
    (location : List Township)
    (hg : doc.records.locations[0]? = some g)
    (hl : g.location = some location)
    (hexists : ∃ t ∈ location, t.locationName = "臺東市") :
    (∃ t ∈ location, selectTownship location = some t ∧
      t.locationName = "臺東市") ∧
    ∀ wd, handleDoc doc = { status := 200, body := .success wd } →
      wd.city = "臺東市" := by
  have hsome :
      (location.find? (fun loc => loc.locationName = "臺東市")).isSome := by
    rw [List.find?_isSome]
    rcases hexists with ⟨t, ht, hname⟩
    exact ⟨t, ht, by simp [hname]⟩
  obtain ⟨t, hfind⟩ := Option.isSome_iff_exists.mp hsome
  have hmem := List.mem_of_find?_eq_some hfind
  have hname : t.locationName = "臺東市" := by
    have h2 := List.find?_some hfind
    simpa using h2
  have hsel := selectTownship_exact location t hfind
  refine ⟨⟨t, hmem, hsel, hname⟩, ?_⟩
  intro wd hwd
  rw [handleDoc_selected doc g location t hg hl hsel] at hwd
  cases hn : normalizeTownship doc.records.issueTime t with
  | error e =>
    simp only [hn] at hwd
    have h500 : (500 : Nat) = 200 := congrArg HttpResponse.status hwd
    exact absurd h500 (by decide)
  | ok wd2 =>
    simp only [hn] at hwd
    have hwd2 : wd2 = wd :=
      ResponseBody.success.inj (congrArg HttpResponse.body hwd)
    rw [← hname, ← hwd2]
    exact normalizeTownship_ok_city _ _ _ hn

/-- Witness for C4 on a document whose second township is the exact match. -/
theorem c4_exact_city_match_witness :
    (∃ t ∈ c4Location, selectTownship c4Location = some t ∧
      t.locationName = "臺東市") ∧
    ∀ wd, handleDoc c4Doc = { status := 200, body := .success wd } →
      wd.city = "臺東市" :=
  c4_exact_city_match c4Doc { location := some c4Location } c4Location
    rfl rfl ⟨c4Location[1], by decide, by decide⟩

/-- C5: with no exact city match and a nonempty township list, the first
township is selected and the handler proceeds to normalize it. -/
theorem c5_fallback_first_township (doc : ApiResponse) (g : LocationGroup)
    (t0 : Township) (rest : List Township)
    (hg : doc.records.locations[0]? = some g)
    (hl : g.location = some (t0 :: rest))
    (hnone : ∀ t ∈ t0 :: rest, t.locationName ≠ "臺東市") :
    selectTownship (t0 :: rest) = some t0 ∧
    handleDoc doc =
      (match normalizeTownship doc.records.issueTime t0 with
       | .ok weatherData => { status := 200, body := .success weatherData }
       | .error _ =>
         { status := 500
           body := .failure "伺服器錯誤" "無法取得天氣資料，請稍後再試" }) := by
  have hfind :
      (t0 :: rest).find? (fun loc => loc.locationName = "臺東市") = none := by
    rw [List.find?_eq_none]
    intro t ht
    simp [hnone t ht]
  have hsel : selectTownship (t0 :: rest) = some t0 := by
    rw [selectTownship_first _ hfind]
    simp
  exact ⟨hsel, handleDoc_selected doc g _ t0 hg hl hsel⟩

/-- Witness for C5 on a two-township list without an exact match. -/
theorem c5_fallback_first_township_witness :
    selectTownship (c5Location[0] :: [c5Location[1]]) = some c5Location[0] ∧
    handleDoc c5Doc =
      (match normalizeTownship c5Doc.records.issueTime c5Location[0] with
       | .ok weatherData => { status := 200, body := .success weatherData }
       | .error _ =>
         { status := 500
           body := .failure "伺服器錯誤" "無法取得天氣資料，請稍後再試" }) :=
  c5_fallback_first_township c5Doc { location := some c5Location }
    c5Location[0] [c5Location[1]] rfl rfl (by decide)

/-- C6: a selected township without a "Wx" element makes normalization fail
with the structural error, surfaced as HTTP 500, and the response body is
never a success body (so no partial or empty forecast list is returned). -/
theorem c6_missing_wx_structural_error (doc : ApiResponse) (g : LocationGroup)
    (location : List Township) (t : Township)
    (hg : doc.records.locations[0]? = some g)
    (hl : g.location = some location)
    (hsel : selectTownship location = some t)
    (hwx : t.weatherElement.find? (fun e => e.elementName = "Wx") = none) :
    normalizeTownship doc.records.issueTime t =
      .error (.thrown "缺少 Wx 天氣要素") ∧
    handleDoc doc =
      { status := 500
        body := .failure "伺服器錯誤" "無法取得天氣資料，請稍後再試" } ∧
    ∀ wd, (handleDoc doc).body ≠ .success wd := by
  have hn : normalizeTownship doc.records.issueTime t =
      .error (.thrown "缺少 Wx 天氣要素") := by
    unfold normalizeTownship
    rw [hwx]
  have hd := handleDoc_selected doc g location t hg hl hsel
  simp only [hn] at hd
  refine ⟨hn, hd, ?_⟩
  intro wd hc
  rw [hd] at hc
  exact ResponseBody.noConfusion hc

/-- Witness for C6 on a township carrying only a "T" element. -/
theorem c6_missing_wx_structural_error_witness :
    normalizeTownship c6Doc.records.issueTime c6Township =
      .error (.thrown "缺少 Wx 天氣要素") ∧
    handleDoc c6Doc =
      { status := 500
        body := .failure "伺服器錯誤" "無法取得天氣資料，請稍後再試" } ∧
    ∀ wd, (handleDoc c6Doc).body ≠ .success wd :=
  c6_missing_wx_structural_error c6Doc { location := some [c6Township] }
    [c6Township] c6Township rfl rfl (by decide) (by decide)

/-- C7: when the element named "T" (unique with that name) carries value v
at index i, both minTemp and maxTemp of the produced forecast equal v with
a degree-Celsius suffix. -/
theorem c7_temperature_mirroring (els : List WeatherElement) (i : Nat)
    (wxEntry : TimeEntry) (tEl : WeatherElement) (entry : TimeEntry)
    (v : String) (f : Forecast)
    (hmem : tEl ∈ els)
    (huniq : ∀ e ∈ els, e.elementName = "T" → e = tEl)
    (hname : tEl.elementName = "T")
    (hentry : tEl.time[i]? = some entry)
    (hparam : entry.parameter = some { parameterName := v })
    (hok : makeForecast els i wxEntry = .ok f) :
    f.minTemp = v ++ "°C" ∧ f.maxTemp = v ++ "°C" := by
  have hv : usableValue tEl i = some v := by
    unfold usableValue
    rw [hentry, Option.some_bind, hparam]
    rfl
  have hfold :=
    foldl_T_set i tEl v hname hv els (initForecast wxEntry) huniq hmem
  unfold makeForecast at hok
  obtain ⟨r, rfl⟩ := resolveRain_shape _ _ _ _ hok
  exact ⟨hfold.1, hfold.2⟩

/-- Witness for C7 with T = "25" at index 0 of the concrete element list. -/
theorem c7_temperature_mirroring_witness :
    ({ startTime := "s", endTime := "e", weather := "晴", rain := "0%",
       minTemp := "25°C", maxTemp := "25°C", comfort := "",
       windSpeed := "" } : Forecast).minTemp = "25" ++ "°C" ∧
    ({ startTime := "s", endTime := "e", weather := "晴", rain := "0%",
       minTemp := "25°C", maxTemp := "25°C", comfort := "",
       windSpeed := "" } : Forecast).maxTemp = "25" ++ "°C" :=
  c7_temperature_mirroring c7Elements 0 (te (some "晴"))
    { elementName := "T", time := [te (some "25")] } (te (some "25")) "25" _
    (by decide) (by decide) rfl rfl rfl rfl

/-- C8: a fetched document whose first location group is absent, or whose
township list is absent or empty, yields HTTP 404 with an error body
(never HTTP 500). -/
theorem c8_missing_structure_404 (apiKey : String) (doc : ApiResponse)
    (hkey : apiKey ≠ "")
    (h : doc.records.locations[0]? = none ∨
         (∃ g, doc.records.locations[0]? = some g ∧ g.location = none) ∨
         (∃ g, doc.records.locations[0]? = some g ∧ g.location = some [])) :
    (getTaitungWeather (some apiKey) (.ok doc)).1.status = 404 ∧
    ∃ err msg,
      (getTaitungWeather (some apiKey) (.ok doc)).1.body =
        .failure err msg := by
  have hm : apiKeyMissing (some apiKey) = false := by
    unfold apiKeyMissing
    simp [hkey]
  have hresp : ∃ msg, handleDoc doc =
      { status := 404, body := .failure "查無資料" msg } := by
    rcases h with h | ⟨g, hg, hl⟩ | ⟨g, hg, hl⟩
    · refine ⟨"無法取得臺東縣鄉鎮天氣資料", ?_⟩
      unfold handleDoc
      simp only [h]
    · refine ⟨"無法取得臺東縣鄉鎮天氣資料", ?_⟩
      unfold handleDoc
      simp only [hg, hl]
    · refine ⟨"無法取得臺東市天氣資料", ?_⟩
      unfold handleDoc
      simp only [hg, hl, show selectTownship ([] : List Township) = none from rfl]
  obtain ⟨msg, hresp⟩ := hresp
  unfold getTaitungWeather
  rw [hm, if_neg (by decide : ¬ (false = true))]
  exact ⟨congrArg HttpResponse.status hresp, "查無資料", msg,
    congrArg HttpResponse.body hresp⟩

/-- Witness for C8 on a document with an empty locations array. -/
theorem c8_missing_structure_404_witness :
    (getTaitungWeather (some "key") (.ok c8Doc)).1.status = 404 ∧
    ∃ err msg,
      (getTaitungWeather (some "key") (.ok c8Doc)).1.body =
        .failure err msg :=
  c8_missing_structure_404 "key" c8Doc (by decide) (Or.inl rfl)

/-- C9: normalization is deterministic; in this embedding it is a pure
function of the document, so repeated runs on the same input yield
identical output and the input cannot be mutated. -/
theorem c9_normalization_deterministic (issueTime : Option String)
    (township : Township) (doc : ApiResponse) :
    normalizeTownship issueTime township =
      normalizeTownship issueTime township ∧
    handleDoc doc = handleDoc doc :=
  ⟨rfl, rfl⟩

/-- C10: fields other than rain default to the empty string whenever their
element yields no value at the index (absent element, no i-th entry, or no
parameter), while rain is never empty on success. -/
theorem c10_empty_string_defaults (els : List WeatherElement) (i : Nat)
    (wxEntry : TimeEntry) (f : Forecast)
    (hok : makeForecast els i wxEntry = .ok f) :
    (noValueAt els i "Wx" = true → f.weather = "") ∧
    (noValueAt els i "T" = true → f.minTemp = "" ∧ f.maxTemp = "") ∧
    (noValueAt els i "CI" = true → f.comfort = "") ∧
    (noValueAt els i "Ws" = true → f.windSpeed = "") ∧
    f.rain ≠ "" := by
  have hrain := resolveRain_rain_nonempty _ _ _ _ hok
  unfold makeForecast at hok
  obtain ⟨r, rfl⟩ := resolveRain_shape _ _ _ _ hok
  refine ⟨?_, ?_, ?_, ?_, hrain⟩
  · intro h
    exact foldl_weather_eq i els (initForecast wxEntry)
      (noValueAt_spec els i "Wx" h)
  · intro h
    exact ⟨foldl_minTemp_eq i els (initForecast wxEntry)
        (noValueAt_spec els i "T" h),
      foldl_maxTemp_eq i els (initForecast wxEntry)
        (noValueAt_spec els i "T" h)⟩
  · intro h
    exact foldl_comfort_eq i els (initForecast wxEntry)
      (noValueAt_spec els i "CI" h)
  · intro h
    exact foldl_windSpeed_eq i els (initForecast wxEntry)
      (noValueAt_spec els i "Ws" h)

/-- Witness for C10 on the all-default element list: every non-rain field
is empty and rain is "0%". -/
theorem c10_empty_string_defaults_witness :
    (noValueAt c10Elements 0 "Wx" = true → c10Forecast.weather = "") ∧
    (noValueAt c10Elements 0 "T" = true →
      c10Forecast.minTemp = "" ∧ c10Forecast.maxTemp = "") ∧
    (noValueAt c10Elements 0 "CI" = true → c10Forecast.comfort = "") ∧
    (noValueAt c10Elements 0 "Ws" = true → c10Forecast.windSpeed = "") ∧
    c10Forecast.rain ≠ "" :=
  c10_empty_string_defaults c10Elements 0 (te none) c10Forecast rfl

end CwaBackend
